import Mathlib

/-!
Verification of the research-agents client (src/app/page.tsx) against its
specification. The client component Home is embedded shallowly: its React
state is a record, its event handlers are pure functions from state (plus
the outcome of each network call) to state together with a trace of the
network/console effects they perform. The FastAPI backend is not part of
the TypeScript sources; where a claim depends on it, the History Store and
submit endpoint are modelled from the spec and marked as such.
-/

set_option maxHeartbeats 1000000

namespace ResearchAgents

/-- JavaScript String.prototype.trim on the embedded string: strip leading and
trailing whitespace. Written over the character list so it evaluates. -/
def jsTrim (s : String) : String :=
  String.mk (((s.toList.dropWhile Char.isWhitespace).reverse.dropWhile
    Char.isWhitespace).reverse)

/-- Boolean prefix test on character lists, used to implement substring search. -/
def hasPrefixL : List Char → List Char → Bool
  | [], _ => true
  | _ :: _, [] => false
  | a :: as, b :: bs => a == b && hasPrefixL as bs

/-- Boolean infix (contiguous substring) test on character lists. -/
def hasInfixL (sub : List Char) : List Char → Bool
  | [] => hasPrefixL sub []
  | b :: bs => hasPrefixL sub (b :: bs) || hasInfixL sub bs

/-- JavaScript String.prototype.includes: sub occurs contiguously in s. -/
def jsIncludes (s sub : String) : Bool := hasInfixL sub.toList s.toList

/-- The shape a successful research response is consumed as
(interface ResearchResults, page.tsx lines 6-13); category is optional. -/
structure ResearchResults where
  question : String
  summary : String
  findings : List String
  sources : List String
  timestamp : String
  category : Option String
deriving Repr, DecidableEq

/-- One stored history entry (interface HistoryItem, page.tsx lines 15-22). -/
structure HistoryItem where
  question : String
  summary : String
  timestamp : String
  category : String
  findings : List String
  sources : List String
deriving Repr, DecidableEq

/-- type History = Record string -> HistoryItem[] (page.tsx line 24),
modelled as an association list from category to bucket. -/
abbrev History := List (String × List HistoryItem)

/-- The React state of the Home component (page.tsx lines 27-33). -/
structure ClientState where
  value : String
  isLoading : Bool
  results : Option ResearchResults
  error : Option String
  history : History
  activeCategory : Option String
deriving Repr, DecidableEq

/-- The JSON body of the research POST, JSON.stringify of an object with the
single field question (page.tsx line 69). -/
structure RequestBody where
  question : String
deriving Repr, DecidableEq

/-- Observable effects of a handler run: network requests issued and console
logging (console.error output is not part of the rendered interface). -/
inductive Event where
  | postResearch (url : String) (body : RequestBody)
  | getHistory (url : String)
  | consoleError (msg : String)
deriving Repr, DecidableEq

/-- Whether an event is the research POST request. -/
def Event.isPost : Event → Bool
  | .postResearch _ _ => true
  | _ => false

/-- Whether an event is the history GET request. -/
def Event.isGetHistory : Event → Bool
  | .getHistory _ => true
  | _ => false

/-- Outcome of the GET history fetch as the client observes it: an ok
response with a parsed body, a non-ok response, or a thrown fetch error. -/
inductive HistOutcome where
  | ok (data : History)
  | notOk (status : Nat)
  | thrown (message : String)
deriving Repr, DecidableEq

/-- Whether the history fetch outcome is an ok response. -/
def HistOutcome.isOk : HistOutcome → Bool
  | .ok _ => true
  | _ => false

/-- Outcome of the research POST as the client observes it: an ok response
with a parsed ResearchResults body, a non-ok response with its status and
body text, or a thrown error (with whether it is a TypeError, whether it is
an Error at all, and its message). -/
inductive PostOutcome where
  | ok (data : ResearchResults)
  | notOk (status : Nat) (errorText : String)
  | thrown (isTypeError : Bool) (isError : Bool) (message : String)
deriving Repr, DecidableEq

/-- Whether the research POST outcome is an ok response. -/
def PostOutcome.isOk : PostOutcome → Bool
  | .ok _ => true
  | _ => false

/-- The base URL both operations use: process.env.NEXT_PUBLIC_API_URL with
fallback (page.tsx lines 37 and 61). -/
def apiBase (env : Option String) : String :=
  env.getD "http://localhost:8000"

/-- fetchHistory (page.tsx lines 35-46): GET apiUrl/api/history; on an ok
response, setHistory(data); a non-ok response is ignored without any state
change; a thrown error is caught and only logged to the console. -/
def fetchHistory (env : Option String) (resp : HistOutcome) (s : ClientState) :
    ClientState × List Event :=
  let ev := Event.getHistory (apiBase env ++ "/api/history")
  match resp with
  | .ok data => ({ s with history := data }, [ev])
  | .notOk _ => (s, [ev])
  | .thrown _ => (s, [ev, Event.consoleError "Failed to fetch history"])

/-- The state entered right after the input guard of handleResearch:
setIsLoading(true); setError(null); setResults(null) (page.tsx lines 56-58). -/
def submittingState (s : ClientState) : ClientState :=
  { s with isLoading := true, error := none, results := none }

/-- The fixed message shown when a TypeError mentioning fetch is caught
(page.tsx line 84). -/
def connectErrorMsg : String :=
  "Failed to connect to API server. Make sure FastAPI is running on http://localhost:8000"

/-- handleResearch (page.tsx lines 53-91). Guard: if the trimmed input is
empty, return with no effect. Otherwise enter the submitting state, POST the
question; on ok, setResults(data) then invoke fetchHistory; on a non-ok
response, throw and catch a Server error message built from the status and
body text; on a thrown fetch error, set the connection or generic message.
The finally block restores isLoading to false on every path. -/
def handleResearch (env : Option String) (post : PostOutcome)
    (hist : HistOutcome) (s : ClientState) : ClientState × List Event :=
  if jsTrim s.value = "" then (s, [])
  else
    let s1 := submittingState s
    let postEv := Event.postResearch (apiBase env ++ "/api/research")
      { question := s.value }
    match post with
    | .ok data =>
        let s2 := { s1 with results := some data }
        let hrun := fetchHistory env hist s2
        ({ hrun.1 with isLoading := false }, postEv :: hrun.2)
    | .notOk status errorText =>
        let msg := "Server error: " ++ toString status ++ " - " ++
          (if errorText = "" then "Unknown error" else errorText)
        ({ s1 with error := some msg, isLoading := false },
         [postEv, Event.consoleError "Response error", Event.consoleError "Fetch error"])
    | .thrown isTypeError isError message =>
        let msg :=
          if isTypeError && jsIncludes message "fetch" then connectErrorMsg
          else if isError then message else "An error occurred"
        ({ s1 with error := some msg, isLoading := false },
         [postEv, Event.consoleError "Fetch error"])

/-- handleKeyPress (page.tsx lines 93-97): Enter triggers handleResearch only
when isLoading is false. -/
def handleKeyPress (key : String) (env : Option String) (post : PostOutcome)
    (hist : HistOutcome) (s : ClientState) : ClientState × List Event :=
  if key == "Enter" && !s.isLoading then handleResearch env post hist s
  else (s, [])

/-- loadHistoryItem (page.tsx lines 99-112): sets the input value and the
results pane from a stored item; the error field is not touched. -/
def loadHistoryItem (item : HistoryItem) (s : ClientState) : ClientState :=
  { s with value := item.question,
           results := some { question := item.question, summary := item.summary,
                             findings := item.findings, sources := item.sources,
                             timestamp := item.timestamp,
                             category := some item.category } }

/-- The disabled attribute of the text input (page.tsx line 190). -/
def inputDisabled (s : ClientState) : Bool := s.isLoading

/-- The disabled attribute of the Research button (page.tsx line 195). -/
def researchButtonDisabled (s : ClientState) : Bool :=
  s.isLoading || jsTrim s.value == ""

/-- The error box of the render (page.tsx lines 211-215): shown exactly when
the error field is non-null, displaying the message. -/
def errorBox (s : ClientState) : Option String :=
  s.error.map (fun e => "Error: " ++ e)

/-- Modelled from the spec: the FastAPI backend (src/main.py) is not among
the TypeScript sources. Spec 3 and 4.1: the History Store maps each category
to an append-ordered bucket; append inserts the answer into the bucket for
its category, creating the bucket if absent, appending at the end. -/
def storeAppend (st : History) (a : HistoryItem) : History :=
  match st with
  | [] => [(a.category, [a])]
  | (c, items) :: rest =>
      if c = a.category then (c, items ++ [a]) :: rest
      else (c, items) :: storeAppend rest a

/-- Modelled from the spec: the Answer Producer output shape (spec 2): a
summary, findings, sources, an optional category, and a timestamp. -/
structure ProducerOutput where
  summary : String
  findings : List String
  sources : List String
  category : Option String
  timestamp : String
deriving Repr, DecidableEq

/-- Modelled from the spec: spec 4.2 - the Research Service builds the
complete record from the producer output, assigning the fallback category
label when the producer gives none. -/
def mkHistoryItem (q : String) (p : ProducerOutput) : HistoryItem :=
  { question := q, summary := p.summary, timestamp := p.timestamp,
    category := p.category.getD "general", findings := p.findings,
    sources := p.sources }

/-- Modelled from the spec: spec 4.2 submit on the server side - on success
the complete record is appended to the History Store and the answer returned
to the caller; the GET history endpoint then serves the updated store. -/
def serverSubmit (st : History) (q : String) (p : ProducerOutput) :
    ResearchResults × History :=
  let item := mkHistoryItem q p
  ({ question := q, summary := p.summary, findings := p.findings,
     sources := p.sources, timestamp := p.timestamp,
     category := some item.category },
   storeAppend st item)

/-- Whether the history exposes, under the given category, an item whose
question field equals q. -/
def historyHasQuestion (h : History) (cat q : String) : Bool :=
  h.any (fun b => b.1 == cat && b.2.any (fun it => it.question == q))

/-- The initial React state of Home (page.tsx lines 27-33). -/
def initState : ClientState :=
  { value := "", isLoading := false, results := none, error := none,
    history := [], activeCategory := none }

/-- A concrete state with a non-empty typed question. -/
def sampleState : ClientState := { initState with value := "Quantum?" }

/-- A concrete state whose typed question is whitespace only. -/
def whitespaceState : ClientState := { initState with value := "   " }

/-- A concrete state with a submission in flight. -/
def loadingState : ClientState :=
  { initState with value := "Quantum?", isLoading := true }

/-- A concrete producer output for scenarios. -/
def sampleProducer : ProducerOutput :=
  { summary := "summary", findings := ["f1", "f2"], sources := ["s1"],
    category := some "science", timestamp := "2024-01-01T00:00:00" }

/-- A concrete research response body. -/
def staleResults : ResearchResults :=
  { question := "old question", summary := "old summary", findings := [],
    sources := [], timestamp := "2024-01-01T00:00:00",
    category := some "general" }

theorem hasPrefixL_refl (l : List Char) : hasPrefixL l l = true := by
  induction l with
  | nil => rfl
  | cons a as ih => simp [hasPrefixL, ih]

theorem hasInfixL_cons {sub l : List Char} (h : hasInfixL sub l = true)
    (c : Char) : hasInfixL sub (c :: l) = true := by
  simp [hasInfixL, h]

theorem hasInfixL_self (l : List Char) : hasInfixL l l = true := by
  cases l with
  | nil => rfl
  | cons b bs => simp [hasInfixL, hasPrefixL_refl]

theorem hasInfixL_nil_sub (l : List Char) : hasInfixL [] l = true := by
  cases l with
  | nil => rfl
  | cons b bs => simp [hasInfixL, hasPrefixL]

theorem hasInfixL_append_left (a : List Char) {sub l : List Char}
    (h : hasInfixL sub l = true) : hasInfixL sub (a ++ l) = true := by
  induction a with
  | nil => simpa using h
  | cons c cs ih => simpa [List.cons_append] using hasInfixL_cons ih c

theorem hasPrefixL_append (sub l c : List Char) (h : hasPrefixL sub l = true) :
    hasPrefixL sub (l ++ c) = true := by
  induction sub generalizing l with
  | nil => rfl
  | cons a as ih =>
      cases l with
      | nil => simp [hasPrefixL] at h
      | cons b bs =>
          simp [hasPrefixL] at h ⊢
          exact ⟨h.1, ih bs h.2⟩

theorem hasInfixL_append_right (sub l c : List Char)
    (h : hasInfixL sub l = true) : hasInfixL sub (l ++ c) = true := by
  induction l with
  | nil =>
      cases sub with
      | nil => simpa using hasInfixL_nil_sub c
      | cons a as => simp [hasInfixL, hasPrefixL] at h
  | cons b bs ih =>
      simp only [hasInfixL, Bool.or_eq_true, List.cons_append] at h ⊢
      rcases h with h | h
      · exact Or.inl (hasPrefixL_append _ _ _ h)
      · exact Or.inr (ih h)

theorem jsIncludes_append_right (a b : String) :
    jsIncludes (a ++ b) b = true := by
  unfold jsIncludes
  have hl : (a ++ b).toList = a.toList ++ b.toList := by simp
  rw [hl]
  exact hasInfixL_append_left a.toList (hasInfixL_self b.toList)

theorem jsIncludes_append_extend {s sub : String} (c : String)
    (h : jsIncludes s sub = true) : jsIncludes (s ++ c) sub = true := by
  unfold jsIncludes at h ⊢
  have hl : (s ++ c).toList = s.toList ++ c.toList := by simp
  rw [hl]
  exact hasInfixL_append_right _ _ _ h

theorem storeAppend_has (st : History) (a : HistoryItem) :
    historyHasQuestion (storeAppend st a) a.category a.question = true := by
  induction st with
  | nil => simp [storeAppend, historyHasQuestion]
  | cons hd tl ih =>
      obtain ⟨c, items⟩ := hd
      by_cases hc : c = a.category
      · subst hc
        simp [storeAppend, historyHasQuestion]
      · simp only [storeAppend, if_neg hc]
        simp only [historyHasQuestion, List.any_cons, Bool.or_eq_true,
          Bool.and_eq_true, beq_iff_eq] at ih ⊢
        exact Or.inr ih

/-- C1: read-after-write consistency. For a valid question, after a submit
that succeeds (with the backend modelled from the spec as an appending
History Store), the run issues exactly one history GET, after the research
POST and before the submission completes, and the refreshed client history
contains an item under the returned category whose question equals the
submitted value. -/
theorem c1_read_after_write (s : ClientState) (env : Option String)
    (st : History) (p : ProducerOutput) (hq : jsTrim s.value ≠ "") :
    (handleResearch env (PostOutcome.ok (serverSubmit st s.value p).1)
        (HistOutcome.ok (serverSubmit st s.value p).2) s).2 =
      [Event.postResearch (apiBase env ++ "/api/research")
        { question := s.value },
       Event.getHistory (apiBase env ++ "/api/history")] ∧
    List.countP Event.isGetHistory
      (handleResearch env (PostOutcome.ok (serverSubmit st s.value p).1)
        (HistOutcome.ok (serverSubmit st s.value p).2) s).2 = 1 ∧
    historyHasQuestion
      (handleResearch env (PostOutcome.ok (serverSubmit st s.value p).1)
        (HistOutcome.ok (serverSubmit st s.value p).2) s).1.history
      (mkHistoryItem s.value p).category s.value = true := by
  refine ⟨?_, ?_, ?_⟩
  · simp [handleResearch, fetchHistory, hq]
  · simp [handleResearch, fetchHistory, hq, Event.isGetHistory, List.countP,
      List.countP.go, Event.isPost]
  · simp only [handleResearch, fetchHistory, serverSubmit, if_neg hq]
    exact storeAppend_has st (mkHistoryItem s.value p)

theorem c1_read_after_write_witness :
    jsTrim sampleState.value ≠ "" ∧
    historyHasQuestion (handleResearch none
        (PostOutcome.ok (serverSubmit [] sampleState.value sampleProducer).1)
        (HistOutcome.ok (serverSubmit [] sampleState.value sampleProducer).2)
        sampleState).1.history
      (mkHistoryItem sampleState.value sampleProducer).category
      sampleState.value = true :=
  ⟨by decide,
   (c1_read_after_write sampleState none [] sampleProducer (by decide)).2.2⟩

/-- C2: no partial writes on producer failure. For every submission whose
research request fails (non-ok response or thrown error), the history state
is identical to the pre-call state and no history GET is issued. -/
theorem c2_no_partial_writes (s : ClientState) (env : Option String)
    (post : PostOutcome) (hist : HistOutcome) (hp : post.isOk = false) :
    (handleResearch env post hist s).1.history = s.history ∧
    List.countP Event.isGetHistory (handleResearch env post hist s).2 = 0 := by
  cases post with
  | ok d => simp [PostOutcome.isOk] at hp
  | notOk status errorText =>
      by_cases hq : jsTrim s.value = "" <;>
        simp [handleResearch, hq, submittingState, Event.isGetHistory,
          List.countP, List.countP.go]
  | thrown isTypeErr isErr message =>
      by_cases hq : jsTrim s.value = "" <;>
        simp [handleResearch, hq, submittingState, Event.isGetHistory,
          List.countP, List.countP.go]

theorem c2_no_partial_writes_witness :
    (PostOutcome.notOk 500 "boom").isOk = false ∧
    (handleResearch none (PostOutcome.notOk 500 "boom") (HistOutcome.ok [])
        sampleState).1.history = sampleState.history :=
  ⟨rfl, (c2_no_partial_writes sampleState none (PostOutcome.notOk 500 "boom")
      (HistOutcome.ok []) rfl).1⟩

/-- C3 as stated is false: submitting a whitespace-only question does not
fail with any surfaced InvalidInput error - handleResearch returns at the
guard with the error field still null, no request issued, and no state
change at all. -/
theorem c3_counterexample :
    (handleResearch none (PostOutcome.notOk 500 "boom") (HistOutcome.ok [])
        whitespaceState).1.error = none ∧
    handleResearch none (PostOutcome.notOk 500 "boom") (HistOutcome.ok [])
        whitespaceState = (whitespaceState, []) := by
  exact ⟨rfl, rfl⟩

/-- C3 (amended): a question that is empty after trimming is rejected before
any Answer Producer invocation and with no state change, and the Research
button is disabled for it; however no InvalidInput error is surfaced - the
guard returns silently. -/
theorem c3_whitespace_rejected (s : ClientState) (env : Option String)
    (post : PostOutcome) (hist : HistOutcome) (hq : jsTrim s.value = "") :
    handleResearch env post hist s = (s, []) ∧
    researchButtonDisabled s = true := by
  constructor
  · simp [handleResearch, hq]
  · simp [researchButtonDisabled, hq]

theorem c3_whitespace_rejected_witness :
    jsTrim whitespaceState.value = "" ∧
    handleResearch none (PostOutcome.ok staleResults) (HistOutcome.ok [])
      whitespaceState = (whitespaceState, []) :=
  ⟨by decide, (c3_whitespace_rejected whitespaceState none
      (PostOutcome.ok staleResults) (HistOutcome.ok []) (by decide)).1⟩

/-- C4 as stated is false: a failed history retrieval (here an HTTP 500
response) is silently ignored - the client state, including the error field,
is left unchanged, so the failure is not surfaced as a visible error. -/
theorem c4_counterexample :
    (fetchHistory none (HistOutcome.notOk 500) initState).1 = initState ∧
    (fetchHistory none (HistOutcome.notOk 500) initState).1.error = none := by
  exact ⟨rfl, rfl⟩

/-- C4 (amended): errors on the submit path are surfaced via the error state
and never retried (exactly one POST is issued and no history re-read), but
failures of the history retrieval are silently swallowed: fetchHistory
leaves the whole state unchanged on a non-ok response or a thrown error,
logging to the console at most. -/
theorem c4_error_surfacing (s : ClientState) (env : Option String)
    (resp : HistOutcome) (post : PostOutcome) (hist : HistOutcome)
    (hr : resp.isOk = false) (hp : post.isOk = false)
    (hq : jsTrim s.value ≠ "") :
    (fetchHistory env resp s).1 = s ∧
    ((handleResearch env post hist s).1.error).isSome = true ∧
    List.countP Event.isPost (handleResearch env post hist s).2 = 1 ∧
    List.countP Event.isGetHistory (handleResearch env post hist s).2 = 0 := by
  refine ⟨?_, ?_, ?_, ?_⟩
  · cases resp <;> simp_all [fetchHistory, HistOutcome.isOk]
  all_goals
    cases post <;>
      simp_all [handleResearch, PostOutcome.isOk, submittingState, hq,
        Event.isPost, Event.isGetHistory, List.countP, List.countP.go]

theorem c4_error_surfacing_witness :
    (HistOutcome.notOk 500).isOk = false ∧
    (PostOutcome.thrown true true "TypeError: Failed to fetch").isOk = false ∧
    jsTrim sampleState.value ≠ "" ∧
    ((handleResearch none
        (PostOutcome.thrown true true "TypeError: Failed to fetch")
        (HistOutcome.ok []) sampleState).1.error).isSome = true :=
  ⟨rfl, rfl, by decide,
   (c4_error_surfacing sampleState none (HistOutcome.notOk 500)
      (PostOutcome.thrown true true "TypeError: Failed to fetch")
      (HistOutcome.ok []) rfl rfl (by decide)).2.1⟩

/-- C5: error frame condition. On every failed submission the error box is
shown while the previously fetched history and the typed input value are
left unchanged, so the user can retry without re-typing. -/
theorem c5_error_frame (s : ClientState) (env : Option String)
    (post : PostOutcome) (hist : HistOutcome) (hp : post.isOk = false)
    (hq : jsTrim s.value ≠ "") :
    (errorBox (handleResearch env post hist s).1).isSome = true ∧
    (handleResearch env post hist s).1.history = s.history ∧
    (handleResearch env post hist s).1.value = s.value := by
  cases post <;>
    simp_all [handleResearch, errorBox, PostOutcome.isOk, submittingState, hq]

theorem c5_error_frame_witness :
    (PostOutcome.notOk 500 "boom").isOk = false ∧
    jsTrim sampleState.value ≠ "" ∧
    (handleResearch none (PostOutcome.notOk 500 "boom") (HistOutcome.ok [])
        sampleState).1.value = sampleState.value :=
  ⟨rfl, by decide,
   (c5_error_frame sampleState none (PostOutcome.notOk 500 "boom")
      (HistOutcome.ok []) rfl (by decide)).2.2⟩

/-- C6: submission state machine. Entering the submitting phase sets
isLoading and clears the prior error and results; every run completes with
isLoading restored to false; exactly one of results (on success) or error
(on failure) is set, the other null; and exactly one POST is issued, so a
failed submission is never retried automatically. -/
theorem c6_state_machine (s : ClientState) (env : Option String)
    (post : PostOutcome) (hist : HistOutcome) (hq : jsTrim s.value ≠ "") :
    (submittingState s).isLoading = true ∧
    (submittingState s).error = none ∧
    (submittingState s).results = none ∧
    (handleResearch env post hist s).1.isLoading = false ∧
    (post.isOk = true →
      ((handleResearch env post hist s).1.results).isSome = true ∧
      (handleResearch env post hist s).1.error = none) ∧
    (post.isOk = false →
      ((handleResearch env post hist s).1.error).isSome = true ∧
      (handleResearch env post hist s).1.results = none) ∧
    List.countP Event.isPost (handleResearch env post hist s).2 = 1 := by
  refine ⟨rfl, rfl, rfl, ?_, ?_, ?_, ?_⟩ <;>
    cases post <;> cases hist <;>
      simp_all [handleResearch, fetchHistory, PostOutcome.isOk,
        submittingState, hq, Event.isPost, Event.isGetHistory,
        List.countP, List.countP.go]

theorem c6_state_machine_witness :
    jsTrim sampleState.value ≠ "" ∧
    (handleResearch none (PostOutcome.ok staleResults) (HistOutcome.ok [])
        sampleState).1.isLoading = false :=
  ⟨by decide, (c6_state_machine sampleState none (PostOutcome.ok staleResults)
      (HistOutcome.ok []) (by decide)).2.2.2.1⟩

/-- C7: POST contract shape. Every research submission sends the body with
the single field question holding the typed value; a success response body is
consumed as-is into results (category optional in its shape); and a failure
response's status and non-empty body text both occur in the surfaced error
message. -/
theorem c7_post_contract (s : ClientState) (env : Option String)
    (hist : HistOutcome) (data : ResearchResults) (status : Nat)
    (errorText : String) (hq : jsTrim s.value ≠ "") (_hs : 400 ≤ status)
    (ht : errorText ≠ "") :
    (handleResearch env (PostOutcome.ok data) hist s).2.head? =
      some (Event.postResearch (apiBase env ++ "/api/research")
        { question := s.value }) ∧
    (handleResearch env (PostOutcome.ok data) hist s).1.results = some data ∧
    (handleResearch env (PostOutcome.notOk status errorText) hist s).1.error =
      some ("Server error: " ++ toString status ++ " - " ++ errorText) ∧
    jsIncludes ("Server error: " ++ toString status ++ " - " ++ errorText)
      (toString status) = true ∧
    jsIncludes ("Server error: " ++ toString status ++ " - " ++ errorText)
      errorText = true := by
  refine ⟨?_, ?_, ?_, ?_, ?_⟩
  · cases hist <;> simp [handleResearch, fetchHistory, hq]
  · cases hist <;> simp [handleResearch, fetchHistory, hq]
  · simp [handleResearch, hq, ht]
  · exact jsIncludes_append_extend errorText
      (jsIncludes_append_extend " - "
        (jsIncludes_append_right "Server error: " (toString status)))
  · exact jsIncludes_append_right
      ("Server error: " ++ toString status ++ " - ") errorText

theorem c7_post_contract_witness :
    jsTrim sampleState.value ≠ "" ∧ 400 ≤ 500 ∧ ("boom" : String) ≠ "" ∧
    (handleResearch none (PostOutcome.notOk 500 "boom") (HistOutcome.ok [])
        sampleState).1.error =
      some ("Server error: " ++ toString (500 : Nat) ++ " - " ++ "boom") :=
  ⟨by decide, by decide, by decide,
   (c7_post_contract sampleState none (HistOutcome.ok []) staleResults 500
      "boom" (by decide) (by decide) (by decide)).2.2.1⟩

/-- C8: configuration surface. Both operations derive their target from the
same environment setting: with it unset both default to
http://localhost:8000, and with it set to u both target u. -/
theorem c8_config (s : ClientState) (post : PostOutcome) (hist : HistOutcome)
    (resp : HistOutcome) (u : String) (hq : jsTrim s.value ≠ "") :
    (handleResearch none post hist s).2.head? =
      some (Event.postResearch ("http://localhost:8000" ++ "/api/research")
        { question := s.value }) ∧
    (fetchHistory none resp s).2.head? =
      some (Event.getHistory ("http://localhost:8000" ++ "/api/history")) ∧
    (handleResearch (some u) post hist s).2.head? =
      some (Event.postResearch (u ++ "/api/research")
        { question := s.value }) ∧
    (fetchHistory (some u) resp s).2.head? =
      some (Event.getHistory (u ++ "/api/history")) := by
  cases post <;> cases resp <;>
    simp [handleResearch, fetchHistory, apiBase, hq]

theorem c8_config_witness :
    jsTrim sampleState.value ≠ "" ∧
    (handleResearch none (PostOutcome.ok staleResults) (HistOutcome.ok [])
        sampleState).2.head? =
      some (Event.postResearch ("http://localhost:8000" ++ "/api/research")
        { question := sampleState.value }) :=
  ⟨by decide, (c8_config sampleState (PostOutcome.ok staleResults)
      (HistOutcome.ok []) (HistOutcome.ok []) "http://example.com"
      (by decide)).1⟩

/-- C9: single in-flight submission. While isLoading is true the Enter key
handler refuses to start a submission and both the input and the Research
button are disabled, so this client never has two research requests in
flight. -/
theorem c9_single_inflight (s : ClientState) (key : String)
    (env : Option String) (post : PostOutcome) (hist : HistOutcome)
    (hl : s.isLoading = true) :
    handleKeyPress key env post hist s = (s, []) ∧
    inputDisabled s = true ∧ researchButtonDisabled s = true := by
  simp [handleKeyPress, inputDisabled, researchButtonDisabled, hl]

theorem c9_single_inflight_witness :
    loadingState.isLoading = true ∧
    handleKeyPress "Enter" none (PostOutcome.ok staleResults)
      (HistOutcome.ok []) loadingState = (loadingState, []) :=
  ⟨rfl, (c9_single_inflight loadingState "Enter" none
      (PostOutcome.ok staleResults) (HistOutcome.ok []) rfl).1⟩

/-- C10 as stated is false: a handleResearch call whose input is whitespace
returns at the guard without clearing anything, so a call can complete with
both results and error non-null. The starting state is reachable: a failed
submit sets error, loadHistoryItem then sets results without clearing error,
and the user edits the input down to whitespace before pressing Enter. -/
theorem c10_counterexample :
    ((handleResearch none (PostOutcome.notOk 500 "boom") (HistOutcome.ok [])
        { value := " ", isLoading := false, results := some staleResults,
          error := some "Server error: 500 - boom", history := [],
          activeCategory := none }).1.results).isSome = true ∧
    ((handleResearch none (PostOutcome.notOk 500 "boom") (HistOutcome.ok [])
        { value := " ", isLoading := false, results := some staleResults,
          error := some "Server error: 500 - boom", history := [],
          activeCategory := none }).1.error).isSome = true := by
  exact ⟨rfl, rfl⟩

/-- C10 (amended): every handleResearch call that passes the non-empty-input
guard completes with at most one of results and error non-null - both are
cleared on entering the submitting state and exactly one branch sets exactly
one of them; a guard-rejected call leaves both fields untouched instead. -/
theorem c10_exclusivity (s : ClientState) (env : Option String)
    (post : PostOutcome) (hist : HistOutcome) (hq : jsTrim s.value ≠ "") :
    ¬(((handleResearch env post hist s).1.results).isSome = true ∧
      ((handleResearch env post hist s).1.error).isSome = true) := by
  cases post <;> cases hist <;>
    simp [handleResearch, fetchHistory, submittingState, hq]

theorem c10_exclusivity_witness :
    jsTrim sampleState.value ≠ "" ∧
    ¬(((handleResearch none (PostOutcome.thrown false true "boom")
        (HistOutcome.ok []) sampleState).1.results).isSome = true ∧
      ((handleResearch none (PostOutcome.thrown false true "boom")
        (HistOutcome.ok []) sampleState).1.error).isSome = true) :=
  ⟨by decide, c10_exclusivity sampleState none
      (PostOutcome.thrown false true "boom") (HistOutcome.ok [])
      (by decide)⟩

end ResearchAgents
